import Mathlib

/-!
Shallow embedding of `fastapi_generic_permissions/__init__.py`.

The registry class `_Permission` is modelled as the structure `Permission`;
its Python dict `_default_messages` is modelled as a total lookup function
`Int → Option String`, where `none` means the key is absent (so `dict.get`
with a fallback is `Option.getD`).  Guard creation (`_Permission.__call__`)
and the per-request closure `check_permission` are modelled in state-passing
style: each operation takes the registry state and returns it alongside its
result, so frame properties are statable.  A raised `HTTPException` is
modelled as the `Except.error` branch of the check's result.
-/

/-- The constant `fastapi.status.HTTP_403_FORBIDDEN`. -/
def HTTP_403_FORBIDDEN : Int := 403

/-- The constant `fastapi.status.HTTP_404_NOT_FOUND`. -/
def HTTP_404_NOT_FOUND : Int := 404

/-- The registry class `_Permission`: its only attribute is the dict
`_default_messages` mapping status codes to default messages. -/
structure Permission where
  default_messages : Int → Option String

/-- The constructor `_Permission.__init__`: the dict starts with exactly the
two entries `403 → "Forbidden"` and `404 → "Not Found"`. -/
def Permission.init : Permission :=
  ⟨fun c =>
    if c = HTTP_403_FORBIDDEN then some "Forbidden"
    else if c = HTTP_404_NOT_FOUND then some "Not Found"
    else none⟩

/-- The module-level factory `permission()`, which returns `_Permission()`. -/
def permissionFactory : Permission := Permission.init

/-- The method `_Permission.set_default_message`: the dict assignment
`self._default_messages[status_code] = message`, in state-passing style. -/
def Permission.set_default_message (self : Permission) (status_code : Int)
    (message : String) : Permission :=
  ⟨fun c => if c = status_code then some message else self.default_messages c⟩

/-- The exception `fastapi.HTTPException(status_code, detail)` as raised by
`check_permission`. -/
structure HTTPException where
  status_code : Int
  detail : String
  deriving DecidableEq, Repr

/-- The state a guard carries: the closure `check_permission` created by
`_Permission.__call__` captures `message` and `status_code`, and the wrapping
`Depends(is_permitted)` stores the predicate untouched.  The predicate's type
`α` is arbitrary because the source performs no validation or invocation of
it: the host pipeline resolves it to the boolean `permitted`. -/
structure Guard (α : Type) where
  is_permitted : α
  message : Option String
  status_code : Int
  deriving Repr

/-- The guard factory `_Permission.__call__(is_permitted, message=None,
status_code=403)`, in state-passing style: its body only defines the closure
and returns `Depends(check_permission)`; the registry state is untouched. -/
def Permission.call {α : Type} (self : Permission) ( is_permitted : α)
    (message : Option String) (status_code : Int) : Guard α × Permission :=
  (⟨ is_permitted, message, status_code⟩, self)

/-- The guard factory invoked with the Python default arguments
`message=None, status_code=status.HTTP_403_FORBIDDEN`. -/
def Permission.callDefault {α : Type} (self : Permission) ( is_permitted : α) :
    Guard α × Permission :=
  self.call is_permitted none HTTP_403_FORBIDDEN

/-- The body of the closure `check_permission(permitted)`: on a falsy
`permitted` it computes
`error = message if message else self._default_messages.get(status_code, "Error")`
(Python string truthiness: `None` and `""` are falsy) and raises
`HTTPException(status_code, error)`; otherwise it returns `None`. -/
def check_permission (self : Permission) (message : Option String)
    (status_code : Int) (permitted : Bool) : Except HTTPException Unit :=
  if !permitted then
    let error : String :=
      match message with
      | some m => if m = "" then (self.default_messages status_code).getD "Error" else m
      | none => (self.default_messages status_code).getD "Error"
    Except.error ⟨status_code, error⟩
  else
    Except.ok ()

/-- A guard's per-request check: the closure reads the captured `message` and
`status_code` and the current registry state (it holds a reference to `self`,
not a copy). -/
def Guard.check {α : Type} (reg : Permission) (g : Guard α) (permitted : Bool) :
    Except HTTPException Unit :=
  check_permission reg g.message g.status_code permitted

/-- The per-request check in state-passing style: the closure body consists of
a conditional, a dict read (`.get`) and a raise, so executing it returns the
registry state it was given. -/
def Guard.checkRun {α : Type} (reg : Permission) (g : Guard α) (permitted : Bool) :
    Except HTTPException Unit × Permission :=
  (Guard.check reg g permitted, reg)

/-- Modelled from the spec's wording of the message precedence chain: use the
explicit message when it is set (non-empty and non-none); otherwise the entry
for the status code in the registry's default messages; otherwise the literal
string `"Error"`. -/
def specResolvedMessage (reg : Permission) (message : Option String)
    (status_code : Int) : String :=
  match message with
  | some m =>
      if m ≠ "" then m
      else
        match reg.default_messages status_code with
        | some d => d
        | none => "Error"
  | none =>
      match reg.default_messages status_code with
      | some d => d
      | none => "Error"

/-- Claim C1: when a guard's check runs with `permitted = false`, it raises an
`HTTPException` carrying exactly the guard's configured status code (which is
403 for a guard created with the default arguments), and it never returns
normally. -/
theorem check_false_raises_configured_status {α : Type} (reg : Permission)
    (g : Guard α) :
    (∃ e : HTTPException,
        Guard.check reg g false = Except.error e ∧ e.status_code = g.status_code) ∧
    (∀ u : Unit, Guard.check reg g false ≠ Except.ok u) ∧
    (∀ p : α, ((Permission.callDefault reg p).1).status_code = HTTP_403_FORBIDDEN) := by
  refine ⟨?_, ?_, fun p => rfl⟩
  · cases hm : g.message with
    | none =>
        refine ⟨⟨g.status_code, (reg.default_messages g.status_code).getD "Error"⟩, ?_, rfl⟩
        simp [Guard.check, check_permission, hm]
    | some m =>
        by_cases he : m = ""
        · refine ⟨⟨g.status_code, (reg.default_messages g.status_code).getD "Error"⟩, ?_, rfl⟩
          simp [Guard.check, check_permission, hm, he]
        · refine ⟨⟨g.status_code, m⟩, ?_, rfl⟩
          simp [Guard.check, check_permission, hm, he]
  · intro u h
    simp [Guard.check, check_permission] at h

/-- Claim C2: when a guard's check runs with `permitted = false`, the detail of the
raised `HTTPException` is resolved by the precedence chain of the spec: the
explicit message when set (non-empty, non-none), else the registry's current
default for the guard's status code, else the literal string `"Error"`. -/
theorem check_false_message_precedence {α : Type} (reg : Permission)
    (g : Guard α) :
    Guard.check reg g false =
      Except.error ⟨g.status_code, specResolvedMessage reg g.message g.status_code⟩ := by
  cases hm : g.message with
  | none =>
      cases hd : reg.default_messages g.status_code <;>
        simp [Guard.check, check_permission, specResolvedMessage, hm, hd]
  | some m =>
      by_cases he : m = "" <;>
        cases hd : reg.default_messages g.status_code <;>
          simp [Guard.check, check_permission, specResolvedMessage, hm, he, hd]

/-- Claim C3: when a guard's check runs with `permitted = true`, it returns normally
(the `Except.ok ()` branch, no exception) and leaves the registry state
unchanged, so request processing continues. -/
theorem check_true_returns_normally {α : Type} (reg : Permission)
    (g : Guard α) :
    Guard.checkRun reg g true = (Except.ok (), reg) := by
  simp [Guard.checkRun, Guard.check, check_permission]

/-- Claim C4: guard creation and `set_default_message` commute with respect to the
rejection message: for a guard created without an explicit message and with
status code `c`, setting the registry's default for `c` to `m` after creation
but before the check makes a `permitted = false` check raise detail `m` —
whatever the registry held for `c` when the guard was created. -/
theorem set_default_message_after_creation {α : Type} (reg : Permission)
    (p : α) (c : Int) (m : String) :
    Guard.check (Permission.set_default_message reg c m)
        ((Permission.call reg p none c).1) false =
      Except.error ⟨c, m⟩ := by
  simp [Guard.check, check_permission, Permission.call,
    Permission.set_default_message]

/-- Claim C5: an explicit message that is the empty string is treated as no
override, because the source tests the message's truthiness rather than
comparing it with `None`: the check behaves exactly as if no explicit message
had been given, and the raised detail is the registry's default for the
guard's status code (or `"Error"`), not the empty string supplied. -/
theorem empty_explicit_message_is_no_override {α : Type} (reg : Permission)
    (p : α) (c : Int) :
    Guard.check reg ⟨p, some "", c⟩ false = Guard.check reg ⟨p, none, c⟩ false ∧
    Guard.check reg ⟨p, some "", c⟩ false =
      Except.error ⟨c, (reg.default_messages c).getD "Error"⟩ := by
  constructor <;> simp [Guard.check, check_permission]

/-- Claim C6: a fresh registry's default-message dict holds exactly the entries
`403 → "Forbidden"` and `404 → "Not Found"` and nothing else, and a guard
created from a fresh registry with the default arguments rejects a
`permitted = false` check with status 403 and detail `"Forbidden"`. -/
theorem init_default_messages :
    Permission.init.default_messages HTTP_403_FORBIDDEN = some "Forbidden" ∧
    Permission.init.default_messages HTTP_404_NOT_FOUND = some "Not Found" ∧
    (∀ c : Int, c ≠ HTTP_403_FORBIDDEN → c ≠ HTTP_404_NOT_FOUND →
      Permission.init.default_messages c = none) ∧
    (∀ (α : Type) (p : α),
      Guard.check permissionFactory ((Permission.callDefault permissionFactory p).1) false =
        Except.error ⟨HTTP_403_FORBIDDEN, "Forbidden"⟩) := by
  refine ⟨rfl, rfl, ?_, ?_⟩
  · intro c h403 h404
    simp [Permission.init, h403, h404]
  · intro α p
    simp [Guard.check, check_permission, Permission.callDefault, Permission.call,
      permissionFactory, Permission.init]

/-- Claim C6 witness: the characterisation of the fresh dict evaluated at the
concrete status code 500, which is neither 403 nor 404. -/
theorem init_default_messages_witness :
    Permission.init.default_messages 500 = none :=
  init_default_messages.2.2.1 500 (by decide) (by decide)

/-- Claim C7: `set_default_message` always succeeds for any integer status code:
the entry for that code becomes the given message (inserted or overwritten),
every other code's entry is unchanged, and a later write to the same code
completely supersedes an earlier one. -/
theorem set_default_message_updates (reg : Permission) (c : Int) (m : String) :
    (Permission.set_default_message reg c m).default_messages c = some m ∧
    (∀ c2 : Int, c2 ≠ c →
      (Permission.set_default_message reg c m).default_messages c2 =
        reg.default_messages c2) ∧
    (∀ m1 : String,
      Permission.set_default_message (Permission.set_default_message reg c m1) c m =
        Permission.set_default_message reg c m) := by
  refine ⟨by simp [Permission.set_default_message], ?_, ?_⟩
  · intro c2 h2
    simp [Permission.set_default_message, h2]
  · intro m1
    unfold Permission.set_default_message
    refine congrArg Permission.mk (funext fun x => ?_)
    by_cases hx : x = c <;> simp [hx]

/-- Claim C7 witness: updating status code 418 on a fresh registry at the concrete
message "teapot" sets that entry, leaves 403 intact, and a second write to
418 supersedes the first. -/
theorem set_default_message_updates_witness :
    (Permission.set_default_message Permission.init 418 "teapot").default_messages 418 =
      some "teapot" ∧
    (Permission.set_default_message Permission.init 418 "teapot").default_messages 403 =
      Permission.init.default_messages 403 ∧
    Permission.set_default_message
        (Permission.set_default_message Permission.init 418 "tea") 418 "teapot" =
      Permission.set_default_message Permission.init 418 "teapot" :=
  ⟨(set_default_message_updates Permission.init 418 "teapot").1,
   (set_default_message_updates Permission.init 418 "teapot").2.1 403 (by decide),
   (set_default_message_updates Permission.init 418 "teapot").2.2 "tea"⟩

/-- Claim C8: the check's outcome depends only on the resolved boolean and the
guard's captured message and status code: two guards wrapping predicates of
arbitrary (possibly different) types — e.g. a synchronous and a suspending
predicate — with equal captured message and status code produce identical
outcomes on the same registry and the same resolved boolean. -/
theorem check_depends_only_on_resolved_bool {α β : Type} (reg : Permission)
    (g1 : Guard α) (g2 : Guard β) (b : Bool)
    (hm : g1.message = g2.message) (hc : g1.status_code = g2.status_code) :
    Guard.check reg g1 b = Guard.check reg g2 b := by
  simp [Guard.check, hm, hc]

/-- Claim C8 witness: a guard wrapping a synchronous boolean predicate and one
wrapping a suspended (thunked optional) predicate, sharing message and status
code, coincide on a `permitted = false` check against a fresh registry. -/
theorem check_depends_only_on_resolved_bool_witness :
    Guard.check Permission.init
        (⟨fun _ => false, none, 403⟩ : Guard (Unit → Bool)) false =
      Guard.check Permission.init
        (⟨fun _ _ => some false, none, 403⟩ : Guard (Unit → Unit → Option Bool)) false :=
  check_depends_only_on_resolved_bool Permission.init _ _ false rfl rfl

/-- Claim C9: a guard check, whether it returns normally or raises, leaves the
registry state unchanged, and it reads the registry only through the
default-messages entry for the guard's own status code: two registries that
agree there give identical outcomes. -/
theorem check_frames_registry {α : Type} (reg : Permission) (g : Guard α)
    (b : Bool) :
    (Guard.checkRun reg g b).2 = reg ∧
    (∀ reg2 : Permission,
      reg.default_messages g.status_code = reg2.default_messages g.status_code →
      Guard.check reg g b = Guard.check reg2 g b) := by
  refine ⟨rfl, fun reg2 h => ?_⟩
  simp [Guard.check, check_permission, h]

/-- Claim C9 witness: the frame and read-footprint property at a concrete guard and
a pair of registries agreeing at status code 403. -/
theorem check_frames_registry_witness :
    (Guard.checkRun Permission.init
        (⟨(), none, 403⟩ : Guard Unit) false).2 = Permission.init ∧
    Guard.check Permission.init (⟨(), none, 403⟩ : Guard Unit) false =
      Guard.check (Permission.set_default_message Permission.init 404 "gone")
        (⟨(), none, 403⟩ : Guard Unit) false :=
  ⟨(check_frames_registry Permission.init ⟨(), none, 403⟩ false).1,
   (check_frames_registry Permission.init ⟨(), none, 403⟩ false).2
     (Permission.set_default_message Permission.init 404 "gone") rfl⟩

/-- Claim C10: the guard factory is pure and total: it leaves the registry state
unchanged, the guard it builds does not depend on the registry's contents,
and it merely stores the predicate, message and status code untouched — no
predicate invocation, no lookup, no validation. -/
theorem call_factory_is_pure {α : Type} (reg reg2 : Permission) (p : α)
    (m : Option String) (c : Int) :
    (Permission.call reg p m c).2 = reg ∧
    (Permission.call reg p m c).1 = (Permission.call reg2 p m c).1 ∧
    ((Permission.call reg p m c).1).is_permitted = p ∧
    ((Permission.call reg p m c).1).message = m ∧
    ((Permission.call reg p m c).1).status_code = c :=
  ⟨rfl, rfl, rfl, rfl, rfl⟩

/-- Claim C1 witness: a concrete denied check — a guard with status code 404 and
no explicit message on a fresh registry — raises an exception carrying 404. -/
theorem check_false_raises_configured_status_witness :
    ∃ e : HTTPException,
      Guard.check Permission.init (⟨(), none, 404⟩ : Guard Unit) false =
          Except.error e ∧
        e.status_code = (⟨(), none, 404⟩ : Guard Unit).status_code :=
  (check_false_raises_configured_status Permission.init ⟨(), none, 404⟩).1
